import Mathlib

/-!
Verification of the soundboard main process (src/main/main.ts).

The development shallowly embeds the clip/playback/recording state machine of
the Electron main process. Mutable fields of the `SoundboardApp` class become
fields of `AppState`; every IPC-exposed operation becomes a function
`... → AppState → AppState` (or returning a value alongside the state).
External effects are modelled explicitly:

* results of `execSync` shell queries (`pactl`, `aplay -l`, the `parecord`
  version probe), `fs.existsSync`, `globalShortcut.register` and
  `Math.random` come from an `Env` record; a `none`/`false` entry models the
  call throwing or failing;
* spawned subprocesses are rows of a process table (`AppState.procs`);
  `kill` marks a row dead and appends the pid to `killLog`;
* messages sent to the renderer (`webContents.send`) are appended to
  `AppState.events`;
* asynchronous process-exit callbacks are separate functions applied to the
  state at the (later) moment the event-loop runs them, matching the
  single-threaded callback semantics of Node;
* `setTimeout` bodies that merely delay a continuation inside one logical
  operation are sequenced inline, except the 300 ms finalize timer of
  `stopSystemAudioCapture`, which is kept as a separate function
  (`finalizeSystemAudioCapture`) because claims are about its interleaving
  with process exit.

Clock values (`Date.now()`) are the `now` field, in milliseconds; durations
are carried in milliseconds (the seconds scaling and 2-decimal rounding of
the source, `Math.round(duration * 100) / 100`, is dropped because nothing
proved here depends on the unit).

JavaScript string operations are re-implemented structurally over `List Char`
so that every definition evaluates inside the kernel:
`strSplit` is `String.prototype.split` with a one-character separator,
`strContainsStr` is `includes`, `strStartsWith` is `startsWith`,
`strReplaceFirst` is `replace` with a string pattern (which in JavaScript
replaces only the first occurrence), `strToLower` is `toLowerCase` restricted
to ASCII (all device-name heuristics in the source compare ASCII words), and
`strNonBlank` tests `line.trim()` used as a truthy filter.
-/

namespace Soundboard

/-- Splits a character list at every occurrence of the separator character,
mirroring `String.prototype.split` with a one-character separator. -/
def splitChar (sep : Char) : List Char → List (List Char)
  | [] => [[]]
  | c :: rest =>
    let r := splitChar sep rest
    if c == sep then [] :: r
    else
      match r with
      | [] => [[c]]
      | g :: gs => (c :: g) :: gs

/-- Boolean prefix test on character lists. -/
def isPrefixOfChars : List Char → List Char → Bool
  | [], _ => true
  | _ :: _, [] => false
  | p :: ps, c :: cs => p == c && isPrefixOfChars ps cs

/-- Boolean substring test on character lists. -/
def containsChars (pat : List Char) : List Char → Bool
  | [] => isPrefixOfChars pat []
  | c :: cs => isPrefixOfChars pat (c :: cs) || containsChars pat cs

/-- Removes the matched pattern from the front of a list (lengths of the two
lists are consumed in lockstep). -/
def dropPatChars : List Char → List Char → List Char
  | [], l => l
  | _ :: _, [] => []
  | _ :: ps, _ :: cs => dropPatChars ps cs

/-- Replaces the first occurrence of `pat` by `repl`, mirroring the
JavaScript `String.prototype.replace` with a string pattern. -/
def replaceFirstChars (pat repl : List Char) : List Char → List Char
  | [] => []
  | c :: cs =>
    if isPrefixOfChars pat (c :: cs) then repl ++ dropPatChars pat (c :: cs)
    else c :: replaceFirstChars pat repl cs

/-- JavaScript `s.split(sep)` for a one-character separator. -/
def strSplit (s : String) (sep : Char) : List String :=
  (splitChar sep s.data).map String.mk

/-- JavaScript `s.includes(pat)`. -/
def strContainsStr (s pat : String) : Bool :=
  containsChars pat.data s.data

/-- JavaScript `s.startsWith(pat)`. -/
def strStartsWith (s pat : String) : Bool :=
  isPrefixOfChars pat.data s.data

/-- JavaScript `s.replace(pat, repl)` with a string pattern: first occurrence
only. -/
def strReplaceFirst (s pat repl : String) : String :=
  String.mk (replaceFirstChars pat.data repl.data s.data)

/-- ASCII lowering of one character. -/
def lowerChar (c : Char) : Char := c.toLower

/-- JavaScript `s.toLowerCase()` (ASCII). -/
def strToLower (s : String) : String :=
  String.mk (s.data.map lowerChar)

/-- Truthiness of `line.trim()`: the line has a non-whitespace character. -/
def strNonBlank (s : String) : Bool :=
  s.data.any (fun c => !c.isWhitespace)

/-- JavaScript `str.padStart(2, "0")` as used by `generateClipNumber`. -/
def padStart2 (s : String) : String :=
  if s.length < 2 then String.mk (List.replicate (2 - s.length) '0') ++ s else s

/-! ## Data model (src/shared/types.ts, as used by src/main/main.ts) -/

/-- AudioClip record. `createdAt` and `duration` are in milliseconds. -/
structure AudioClip where
  id : String
  name : String
  filePath : String
  duration : Nat
  createdAt : Nat
  hotkey : Option String
deriving Repr, DecidableEq

instance : Inhabited AudioClip :=
  ⟨{ id := "", name := "", filePath := "", duration := 0, createdAt := 0, hotkey := none }⟩

/-- PlaybackState as kept by the main process (main.ts lines 33-38): it also
carries the `progress` and `startTime` fields initialised there. -/
structure PlaybackState where
  isPlaying : Bool
  currentClipId : Option String
  progress : Nat
  startTime : Nat
deriving Repr, DecidableEq

/-- AudioDevice inventory entry. The source builds these as object literals
with optional `isVirtual` / `isMonitor` / `description` fields, so those are
`Option`-valued; `type` is one of the literal strings
"input" / "output" / "virtual" / "monitor". -/
structure AudioDevice where
  id : String
  name : String
  type : String
  isDefault : Bool
  isVirtual : Option Bool
  isMonitor : Option Bool
  description : Option String
deriving Repr, DecidableEq

/-- AppSettings with the defaults of `getSettings` (main.ts lines 962-982).
`volume` is 1.0 in the source; nothing here computes with it, so it is a
`Nat`. The defaults-merge `{...defaultSettings, ...storedSettings}` is
collapsed: `AppState.settings` holds the already-merged record, which is all
any code path under verification reads. -/
structure AppSettings where
  theme : String
  outputDeviceId : String
  virtualAudioDeviceId : String
  inputDeviceId : String
  clipsDirectory : String
  enableHotkeys : Bool
  volume : Nat
  enableVirtualAudioRouting : Bool
  enableSystemAudioCapture : Bool
  enableAutoStart : Bool
  enableSpeakerLoopback : Bool
  enableHeadphoneLoopback : Bool
deriving Repr, DecidableEq

/-- Kind of a spawned OS subprocess. -/
inductive ProcKind where
  | playback
  | capture
deriving Repr, DecidableEq

/-- A row of the process table: one spawned subprocess, the command it was
spawned with, and whether it is still alive. -/
structure Process where
  pid : Nat
  kind : ProcKind
  cmd : String
  alive : Bool
deriving Repr, DecidableEq

/-- The `currentPlayback = { audioProcess, method }` reference
(the `audioProcess` handle is identified by its pid). -/
structure PlaybackHandle where
  pid : Nat
  method : String
deriving Repr, DecidableEq

/-- The `recordingStream` field: a `mic` library handle for microphone
recording, or the `{ process, pid, ... }` wrapper around the `parecord`
subprocess for system-audio capture (distinguished in the source by the
presence of a `.process` field). -/
inductive RecordingStream where
  | mic
  | sysCapture (pid : Nat)
deriving Repr, DecidableEq

/-- A message sent to the renderer over IPC (`webContents.send`). -/
inductive Event where
  | recordingStateChanged (isRecording : Bool) (duration : Nat) (startTime : Option Nat)
  | playbackStateChanged (st : PlaybackState)
  | playbackError (message : String) (details : String)
  | clipSaved (clip : AudioClip)
deriving Repr, DecidableEq

/-- The mutable fields of the `SoundboardApp` class, together with the
explicit models of its effects: the process table, the renderer event log,
the kill log, the OS-registered shortcut set, and whether the 300 ms
finalize timer of `stopSystemAudioCapture` is pending. -/
structure AppState where
  isRecording : Bool
  recordingStream : Option RecordingStream
  recordingStartTime : Nat
  currentRecordingFile : String
  playbackState : PlaybackState
  currentPlayback : Option PlaybackHandle
  clips : List AudioClip
  hotkeyMap : List (String × String)
  osHotkeys : List String
  settings : AppSettings
  clipsDirectory : String
  procs : List Process
  nextPid : Nat
  events : List Event
  killLog : List Nat
  pendingFinalize : Bool
  now : Nat
deriving Repr, DecidableEq

/-- External world: results of the shell queries and OS calls the main
process makes. A `none` models the underlying `execSync` throwing (the
source catches it); `registerOk` covers both `globalShortcut.register`
returning false and throwing. `cardMatch` stands for the regular-expression
capture of one `aplay -l` line against the card pattern, yielding
(card number, card id, card description); `sourceDescription` stands for the
`pactl list sources` grep used to describe a monitor source. -/
structure Env where
  fileExists : String → Bool
  pactlSinks : Option String
  pactlSources : Option String
  aplayL : Option String
  cardMatch : String → Option (String × String × String)
  sourceDescription : String → Option String
  parecordAvailable : Bool
  registerOk : String → Bool
  randomSuffix : String

/-! ## Shared helpers -/

/-- Appends one renderer message to the event log. -/
def emit (e : Event) (s : AppState) : AppState :=
  { s with events := s.events ++ [e] }

/-- Spawns a subprocess: appends a live row to the process table and returns
its fresh pid. -/
def spawnProc (kind : ProcKind) (cmd : String) (s : AppState) : Nat × AppState :=
  (s.nextPid,
    { s with
      procs := s.procs ++ [{ pid := s.nextPid, kind := kind, cmd := cmd, alive := true }]
      nextPid := s.nextPid + 1 })

/-- Kills a subprocess: marks its row dead and records the kill attempt.
The `SIGTERM` / delayed `SIGKILL` / `pkill -P` child cleanup sequences of the
source are collapsed into this one kill, since the model has no child
processes. -/
def killPid (pid : Nat) (s : AppState) : AppState :=
  { s with
    procs := s.procs.map (fun p => if p.pid == pid then { p with alive := false } else p)
    killLog := s.killLog ++ [pid] }

/-- getSettings (main.ts 962-982): returns the merged settings record. -/
def getSettings (s : AppState) : AppSettings := s.settings

/-- getClips (main.ts 907-914): reads the stored clips, rebuilding each
`createdAt` (a `Date` round-trip in the source; the identity on the `Nat`
timestamps of the model). -/
def getClips (s : AppState) : List AudioClip :=
  s.clips.map (fun c => { c with createdAt := c.createdAt })

/-- Array.prototype.findIndex specialised to a clip-id match, as `Option`
(`none` plays the role of `-1`). -/
def findClipIdx (id : String) : List AudioClip → Option Nat
  | [] => none
  | c :: rest => if c.id == id then some 0 else (findClipIdx id rest).map (· + 1)

/-- `Map.prototype.get` on the hotkey map (an association list whose keys are
unique, as for the ES `Map` it models). -/
def mapGet (m : List (String × String)) (k : String) : Option String :=
  (m.find? (fun kv => kv.1 == k)).map (·.2)

/-- `Map.prototype.has` on the hotkey map. -/
def mapHas (m : List (String × String)) (k : String) : Bool :=
  m.any (fun kv => kv.1 == k)

/-- `Map.prototype.set` on the hotkey map: replaces the value in place if the
key is present, otherwise appends (insertion order, as the ES `Map`). -/
def mapSet (m : List (String × String)) (k v : String) : List (String × String) :=
  if mapHas m k then m.map (fun kv => if kv.1 == k then (k, v) else kv)
  else m ++ [(k, v)]

/-- `Map.prototype.delete` on the hotkey map. Keys are unique, so removing
every pair with the key equals deleting the single entry. -/
def mapDelete (m : List (String × String)) (k : String) : List (String × String) :=
  m.filter (fun kv => kv.1 != k)

/-- Splits an `execSync("pactl list short ...")` output into its non-blank
lines: `output.split('\n').filter(line => line.trim())`. -/
def pactlLines (out : String) : List String :=
  (strSplit out '\n').filter strNonBlank

/-- The tab-separated-line lookup loop used on `pactl list short sinks` and
`pactl list short sources` output (main.ts 409-417, 639-664, 784-809,
1142-1156): returns the second column of the first line whose first column
equals the device number and which has at least two columns. -/
def pactlFindName (out deviceNum : String) : Option String :=
  (pactlLines out).findSome? (fun line =>
    let parts := strSplit line '\t'
    if parts.getD 0 "" == deviceNum ∧ 2 ≤ parts.length then parts.getD 1 "" else none)

/-! ## Clip store -/

/-- saveClip (main.ts 916-928) on the clip list: replace in place at the
first index with the same id, else append. -/
def saveClipList (clips : List AudioClip) (clip : AudioClip) : List AudioClip :=
  match findClipIdx clip.id clips with
  | some i => clips.set i clip
  | none => clips ++ [clip]

/-- saveClip as a state transformer (the store.set of the clips key). -/
def saveClip (clip : AudioClip) (s : AppState) : AppState :=
  { s with clips := saveClipList (getClips s) clip }

/-- generateClipId (main.ts 295-297): `clip_<Date.now()>_<random>`. -/
def generateClipId (env : Env) (s : AppState) : String :=
  "clip_" ++ toString s.now ++ "_" ++ env.randomSuffix

/-- generateClipNumber (main.ts 299-302): next sequential clip count,
zero-padded to two digits. -/
def generateClipNumber (s : AppState) : String :=
  padStart2 (toString ((getClips s).length + 1))

/-! ## Playback stop -/

/-- The not-playing value `stopPlayback` resets `playbackState` to. -/
def stoppedPlaybackState : PlaybackState :=
  { isPlaying := false, currentClipId := none, progress := 0, startTime := 0 }

/-- stopPlayback (main.ts 860-905): if a playback is tracked, kill its
process (and, in the source, best-effort `pkill` its children) and drop the
handle; then reset `playbackState` and notify the renderer. -/
def stopPlayback (s : AppState) : AppState :=
  let s :=
    match s.currentPlayback with
    | some cp => { killPid cp.pid s with currentPlayback := none }
    | none => s
  let s := { s with playbackState := stoppedPlaybackState }
  emit (.playbackStateChanged stoppedPlaybackState) s

/-! ## Hotkeys -/

/-- unregisterHotkey (main.ts 1672-1693): no-op returning false when the clip
is missing or has no hotkey; otherwise removes the OS registration, the map
entry, and the clip field, and persists the clips. -/
def unregisterHotkey (clipId : String) (s : AppState) : Bool × AppState :=
  let clips := getClips s
  match clips.find? (fun c => c.id == clipId) with
  | none => (false, s)
  | some clip =>
    match clip.hotkey with
    | none => (false, s)
    | some hotkeyString =>
      let s := { s with
        osHotkeys := s.osHotkeys.erase hotkeyString
        hotkeyMap := mapDelete s.hotkeyMap hotkeyString }
      let s :=
        match findClipIdx clipId clips with
        | some i =>
          let c := clips.getD i clip
          { s with clips := clips.set i { c with hotkey := none } }
        | none => s
      (true, s)

/-- registerHotkey (main.ts 1631-1670): joins the combo, unregisters the
existing combo of the clip and of any conflicting owner, then attempts the OS
registration; on success persists the mapping into the map and the clip. -/
def registerHotkey (env : Env) (clipId key : String) (modifiers : List String)
    (s : AppState) : Bool × AppState :=
  let hotkeyString := String.intercalate "+" (modifiers ++ [key])
  let s := (unregisterHotkey clipId s).2
  let s :=
    if mapHas s.hotkeyMap hotkeyString then
      match mapGet s.hotkeyMap hotkeyString with
      | some existingClipId => (unregisterHotkey existingClipId s).2
      | none => s
    else s
  if env.registerOk hotkeyString then
    let s := { s with
      osHotkeys := s.osHotkeys ++ [hotkeyString]
      hotkeyMap := mapSet s.hotkeyMap hotkeyString clipId }
    let clips := getClips s
    let s :=
      match findClipIdx clipId clips with
      | some i =>
        let c := clips.getD i default
        { s with clips := clips.set i { c with hotkey := some hotkeyString } }
      | none => s
    (true, s)
  else (false, s)

/-! ## Playback dispatch

The playback strategies `tryPlaybackMethods`, `tryVirtualAudioPlayback` and
`tryOutputDevicePlayback` fall back into each other through synchronous
calls with no decreasing measure (the source can in fact loop forever, e.g.
when virtual routing is enabled but the configured device fails validation),
so they are embedded as one fuel-indexed dispatcher whose `PlaybackCall`
constructors name the three source functions; running out of fuel returns
the state unchanged. Every theorem below holds for every fuel value. -/

/-- isValidVirtualDevice (main.ts 1401-1439). -/
def isValidVirtualDevice (env : Env) (deviceId : String) : Bool :=
  if deviceId == "soundboard-output" then
    match env.pactlSinks with
    | some out => strContainsStr out "soundboard-output"
    | none => false
  else if strStartsWith deviceId "pulse-" then
    match env.pactlSinks with
    | some out =>
      let deviceIdNum := strReplaceFirst deviceId "pulse-" ""
      (pactlLines out).any (fun line =>
        let parts := strSplit line '\t'
        parts.getD 0 "" == deviceIdNum && decide (2 ≤ parts.length))
    | none => false
  else if strStartsWith deviceId "alsa-" then
    match env.aplayL with
    | some out =>
      strContainsStr out ("card " ++ strReplaceFirst deviceId "alsa-" "" ++ ":")
    | none => false
  else false

/-- createPulseAudioProcess (main.ts 396-455): builds the `paplay` command
(resolving a `pulse-<n>` id against the sink list, keeping the default
command when no line matches), spawns it, and returns the process; `none`
models the catch-and-return-null path when the sink query throws. -/
def createPulseAudioProcess (env : Env) (filePath deviceId clipId : String)
    (s : AppState) : Option Nat × AppState :=
  if deviceId == "default" then
    let (pid, s) := spawnProc .playback ("paplay " ++ filePath) s
    (some pid, s)
  else if strStartsWith deviceId "pulse-" then
    let deviceNum := strReplaceFirst deviceId "pulse-" ""
    match env.pactlSinks with
    | none => (none, s)
    | some out =>
      let cmd :=
        match pactlFindName out deviceNum with
        | some deviceName => "paplay --device=" ++ deviceName ++ " " ++ filePath
        | none => "paplay " ++ filePath
      let (pid, s) := spawnProc .playback cmd s
      (some pid, s)
  else
    let (pid, s) := spawnProc .playback ("paplay " ++ filePath) s
    (some pid, s)

/-- The three mutually recursive playback strategy functions
(main.ts 460-502, 614-764, 766-858), named by constructor. -/
inductive PlaybackCall where
  | tryPlaybackMethods (filePath clipId : String) (isSystemAudio : Bool)
  | tryVirtualAudioPlayback (filePath clipId virtualDeviceId : String) (isSystemAudio : Bool)
  | tryOutputDevicePlayback (filePath clipId outputDeviceId : String) (isSystemAudio : Bool)
deriving Repr, DecidableEq

/-- Synchronous part of the playback strategy chain. Each arm is one source
function; cross-calls spend one unit of fuel. Spawned players register
asynchronous completion callbacks, modelled by the standalone callback
functions below. -/
def playbackCallStep (env : Env) : Nat → PlaybackCall → AppState → AppState
  | 0, _, s => s
  | fuel + 1, .tryPlaybackMethods filePath clipId isSystemAudio, s =>
    let settings := getSettings s
    if settings.enableVirtualAudioRouting && settings.virtualAudioDeviceId != "" then
      playbackCallStep env fuel
        (.tryVirtualAudioPlayback filePath clipId settings.virtualAudioDeviceId isSystemAudio) s
    else if settings.outputDeviceId != "" && settings.outputDeviceId != "default" then
      playbackCallStep env fuel
        (.tryOutputDevicePlayback filePath clipId settings.outputDeviceId isSystemAudio) s
    else
      let (pid, s) := spawnProc .playback ("play-sound " ++ filePath) s
      { s with currentPlayback := some { pid := pid, method := "play-sound" } }
  | fuel + 1, .tryVirtualAudioPlayback filePath clipId virtualDeviceId isSystemAudio, s =>
    if !isValidVirtualDevice env virtualDeviceId then
      playbackCallStep env fuel (.tryPlaybackMethods filePath clipId isSystemAudio) s
    else if strStartsWith virtualDeviceId "pulse-" then
      let deviceId := strReplaceFirst virtualDeviceId "pulse-" ""
      match env.pactlSinks with
      | none => playbackCallStep env fuel (.tryPlaybackMethods filePath clipId isSystemAudio) s
      | some out =>
        match pactlFindName out deviceId with
        | some deviceName =>
          let (pid, s) := spawnProc .playback
            ("paplay --device=" ++ deviceName ++ " " ++ filePath) s
          { s with currentPlayback := some { pid := pid, method := "virtual" } }
        | none => playbackCallStep env fuel (.tryPlaybackMethods filePath clipId isSystemAudio) s
    else if strStartsWith virtualDeviceId "alsa-" then
      let cardId := strReplaceFirst virtualDeviceId "alsa-" ""
      let (pid, s) := spawnProc .playback ("aplay -D hw:" ++ cardId ++ ",0 " ++ filePath) s
      { s with currentPlayback := some { pid := pid, method := "virtual" } }
    else if virtualDeviceId == "soundboard-output" then
      let (pid, s) := spawnProc .playback ("paplay --device=soundboard-output " ++ filePath) s
      { s with currentPlayback := some { pid := pid, method := "virtual" } }
    else if virtualDeviceId == "vb-cable" then
      let (pid, s) := spawnProc .playback ("paplay --device=VB-Audio " ++ filePath) s
      { s with currentPlayback := some { pid := pid, method := "virtual" } }
    else
      playbackCallStep env fuel (.tryPlaybackMethods filePath clipId isSystemAudio) s
  | fuel + 1, .tryOutputDevicePlayback filePath clipId outputDeviceId isSystemAudio, s =>
    if strStartsWith outputDeviceId "pulse-" then
      let deviceId := strReplaceFirst outputDeviceId "pulse-" ""
      match env.pactlSinks with
      | none => playbackCallStep env fuel (.tryPlaybackMethods filePath clipId isSystemAudio) s
      | some out =>
        match pactlFindName out deviceId with
        | some deviceName =>
          let (pid, s) := spawnProc .playback
            ("paplay --device=" ++ deviceName ++ " " ++ filePath) s
          { s with currentPlayback := some { pid := pid, method := "output-device" } }
        | none => playbackCallStep env fuel (.tryPlaybackMethods filePath clipId isSystemAudio) s
    else if strStartsWith outputDeviceId "alsa-" then
      let cardId := strReplaceFirst outputDeviceId "alsa-" ""
      let (pid, s) := spawnProc .playback ("aplay -D hw:" ++ cardId ++ ",0 " ++ filePath) s
      { s with currentPlayback := some { pid := pid, method := "output-device" } }
    else
      playbackCallStep env fuel (.tryPlaybackMethods filePath clipId isSystemAudio) s

/-- playSystemAudioClip (main.ts 359-394): virtual routing first, then the
configured output device via `createPulseAudioProcess`, then default
PulseAudio, then the standard method chain. -/
def playSystemAudioClip (env : Env) (fuel : Nat) (filePath clipId : String)
    (duration : Nat) (s : AppState) : AppState :=
  let settings := getSettings s
  if settings.enableVirtualAudioRouting && settings.virtualAudioDeviceId != "" then
    playbackCallStep env fuel
      (.tryVirtualAudioPlayback filePath clipId settings.virtualAudioDeviceId true) s
  else
    let attempt :=
      if settings.outputDeviceId != "" && settings.outputDeviceId != "default" then
        createPulseAudioProcess env filePath settings.outputDeviceId clipId s
      else (none, s)
    match attempt with
    | (some pid, s) =>
      { s with currentPlayback := some { pid := pid, method := "system-audio-pulseaudio" } }
    | (none, s) =>
      match createPulseAudioProcess env filePath "default" clipId s with
      | (some pid, s) =>
        { s with currentPlayback := some { pid := pid, method := "system-audio-pulseaudio" } }
      | (none, s) => playbackCallStep env fuel (.tryPlaybackMethods filePath clipId true) s

/-- tryAlsaPlayback (main.ts 553-580), synchronous part: spawn `aplay` and
track it; completion is observed by `alsaPlaybackCallback`. -/
def tryAlsaPlayback (filePath clipId : String) (s : AppState) : AppState :=
  let (pid, s) := spawnProc .playback ("aplay " ++ filePath) s
  { s with currentPlayback := some { pid := pid, method := "alsa" } }

/-- tryPulseAudioPlayback (main.ts 582-612), synchronous part: spawn
`paplay` and track it. -/
def tryPulseAudioPlayback (filePath clipId : String) (s : AppState) : AppState :=
  let (pid, s) := spawnProc .playback ("paplay " ++ filePath) s
  { s with currentPlayback := some { pid := pid, method := "pulseaudio" } }

/-- playClip (main.ts 304-357): stop any active playback (and once more
unconditionally), look the clip up, and dispatch to the system-audio or
standard playback path; a missing clip or file is a logged no-op. -/
def playClip (env : Env) (fuel : Nat) (clipId : String) (s : AppState) : AppState :=
  let s := if s.playbackState.isPlaying then stopPlayback s else s
  let s := stopPlayback s
  let clips := getClips s
  match clips.find? (fun c => c.id == clipId) with
  | none => s
  | some clip =>
    if !env.fileExists clip.filePath then s
    else
      let isSystemAudio := strStartsWith clip.name "System_Audio_"
        || strContainsStr clip.filePath "system_audio_"
      let st : PlaybackState :=
        { isPlaying := true, currentClipId := some clipId, progress := 0, startTime := s.now }
      let s := { s with playbackState := st }
      let s := emit (.playbackStateChanged st) s
      if isSystemAudio then
        playSystemAudioClip env fuel clip.filePath clipId clip.duration s
      else
        playbackCallStep env fuel (.tryPlaybackMethods clip.filePath clipId isSystemAudio) s

/-! ## Playback completion callbacks

These run when the event loop delivers a player exit or completion, possibly
long after the spawning call returned and possibly after another playback
has replaced the tracked handle. -/

/-- handlePlaybackError (main.ts 1747-1758): stop playback, then surface the
error to the renderer. -/
def handlePlaybackError (method details : String) (s : AppState) : AppState :=
  let s := stopPlayback s
  emit (.playbackError ("Audio playback failed using " ++ method) details) s

/-- Exit handler installed by `createPulseAudioProcess` (main.ts 432-447):
on exit code 0, after a 200 ms buffer, stop playback only if still playing
the same clip id; on nonzero exit, `handlePlaybackError`. -/
def pulseAudioSpawnExitCallback (clipId : String) (code : Int) (s : AppState) : AppState :=
  if code == 0 then
    if s.playbackState.isPlaying && s.playbackState.currentClipId == some clipId then
      stopPlayback s
    else s
  else
    handlePlaybackError "system-audio-pulseaudio"
      ("PulseAudio playback failed with code " ++ toString code) s

/-- Exit handler installed on the `soundboard-output` spawn inside
`tryVirtualAudioPlayback` (main.ts 710-722): on exit code 0, after a 200 ms
buffer, stop playback unconditionally; on nonzero exit, fall back to
`tryPlaybackMethods`. -/
def soundboardOutputExitCallback (env : Env) (fuel : Nat)
    (filePath clipId : String) (isSystemAudio : Bool) (code : Int)
    (s : AppState) : AppState :=
  if code == 0 then stopPlayback s
  else playbackCallStep env fuel (.tryPlaybackMethods filePath clipId isSystemAudio) s

/-- Completion callback of the `play-sound` attempt in `tryPlaybackMethods`
(main.ts 479-488): on error fall back to ALSA, on success stop playback. -/
def playSoundCompletionCallback (filePath clipId : String) (err : Bool)
    (s : AppState) : AppState :=
  if err then tryAlsaPlayback filePath clipId s else stopPlayback s

/-- Completion callback of the `aplay` attempt (main.ts 557-566). -/
def alsaPlaybackCallback (filePath clipId : String) (err : Bool)
    (s : AppState) : AppState :=
  if err then tryPulseAudioPlayback filePath clipId s else stopPlayback s

/-- Completion callback of the final `paplay` attempt (main.ts 586-598):
on error surface the terminal playback error and stop. -/
def pulseAudioPlaybackCallback (err : Bool) (errMessage : String)
    (s : AppState) : AppState :=
  if err then
    let s := emit (.playbackError
      "All audio playback methods failed. Try closing Discord or changing audio settings."
      errMessage) s
    stopPlayback s
  else stopPlayback s

/-! ## Recording controller -/

/-- startRecording (main.ts 206-248): guarded by `isRecording`; sets the
flag and start time, derives the output file name from the clock, starts the
mic stream, and notifies the renderer. -/
def startRecording (s : AppState) : AppState :=
  if s.isRecording then s
  else
    let s := { s with isRecording := true, recordingStartTime := s.now }
    let s := { s with
      currentRecordingFile := s.clipsDirectory ++ "/clip_" ++ toString s.now ++ ".wav" }
    let s := { s with recordingStream := some .mic }
    emit (.recordingStateChanged true 0 (some s.recordingStartTime)) s

/-- stopSystemAudioCapture (main.ts 1280-1299): only requests the stop — it
schedules `finalizeSystemAudioCapture` on a 300 ms buffer timer and returns
null immediately. -/
def stopSystemAudioCapture (s : AppState) : AppState :=
  if !s.isRecording then s
  else { s with pendingFinalize := true }

/-- finalizeSystemAudioCapture (main.ts 1301-1378): latched on `isRecording`
(an early return when it is already false); otherwise clears the flag, kills
the capture process, notifies the renderer, and — on the 100 ms file timer,
sequenced after — materializes the `System_Audio_<NN>` clip if the file
exists. -/
def finalizeSystemAudioCapture (env : Env) (s : AppState) : AppState :=
  if !s.isRecording then s
  else
    let s := { s with isRecording := false }
    let duration := s.now - s.recordingStartTime
    let s :=
      match s.recordingStream with
      | some (.sysCapture pid) => { killPid pid s with recordingStream := none }
      | some .mic => { s with recordingStream := none }
      | none => s
    let s := emit (.recordingStateChanged false duration none) s
    if env.fileExists s.currentRecordingFile then
      let clip : AudioClip := {
        id := generateClipId env s
        name := "System_Audio_" ++ generateClipNumber s
        filePath := s.currentRecordingFile
        duration := duration
        createdAt := s.now
        hotkey := none }
      let s := saveClip clip s
      emit (.clipSaved clip) s
    else s

/-- stopRecording (main.ts 250-293): redirects to the system-audio stop when
the tracked stream wraps a subprocess; otherwise clears the flag, stops the
mic stream, notifies, and — on the 100 ms file timer, sequenced after —
materializes the `Clip_<NN>` clip if the file exists. -/
def stopRecording (env : Env) (s : AppState) : AppState :=
  if !s.isRecording then s
  else
    match s.recordingStream with
    | some (.sysCapture _) => stopSystemAudioCapture s
    | r =>
      let s := { s with isRecording := false }
      let duration := s.now - s.recordingStartTime
      let s :=
        match r with
        | some _ => { s with recordingStream := none }
        | none => s
      let s := emit (.recordingStateChanged false duration none) s
      if env.fileExists s.currentRecordingFile then
        let clip : AudioClip := {
          id := generateClipId env s
          name := "Clip_" ++ generateClipNumber s
          filePath := s.currentRecordingFile
          duration := duration
          createdAt := s.now
          hotkey := none }
        let s := saveClip clip s
        emit (.clipSaved clip) s
      else s

/-- handleSystemAudioError (main.ts 1240-1256): clear the flag and surface
the capture error and the recording-state reset to the renderer. -/
def handleSystemAudioError (message : String) (s : AppState) : AppState :=
  let s := { s with isRecording := false }
  let s := emit (.playbackError "System audio capture failed" message) s
  emit (.recordingStateChanged false 0 none) s

/-- handleSystemAudioExit (main.ts 1258-1278): exit code 0 clears the flag
and notifies; any other exit is routed to `handleSystemAudioError`. -/
def handleSystemAudioExit (code : Int) (signal : String) (s : AppState) : AppState :=
  if code == 0 then
    let s := { s with isRecording := false }
    let duration := s.now - s.recordingStartTime
    emit (.recordingStateChanged false duration none) s
  else
    handleSystemAudioError
      ("Parecord exited with code " ++ toString code ++ " and signal " ++ signal) s

/-- startSystemAudioCapture (main.ts 1063-1238): guarded by `isRecording`,
the `enableSystemAudioCapture` setting and a `monitor-` input device id;
sets the flag and broadcasts it, then probes `parecord --version`, resolves
the monitor source, and spawns `parecord` — each failure emits an error and
resets the flag. -/
def startSystemAudioCapture (env : Env) (s : AppState) : AppState :=
  if s.isRecording then s
  else
    let settings := getSettings s
    if !settings.enableSystemAudioCapture then s
    else
      let inputDeviceId := settings.inputDeviceId
      if inputDeviceId == "" || !strStartsWith inputDeviceId "monitor-" then s
      else
        let s := { s with isRecording := true, recordingStartTime := s.now }
        let s := emit (.recordingStateChanged true 0 (some s.recordingStartTime)) s
        let s := { s with
          currentRecordingFile := s.clipsDirectory ++ "/system_audio_" ++ toString s.now ++ ".wav" }
        if !env.parecordAvailable then
          let s := emit (.playbackError "Parecord is not available"
            "Please install PulseAudio utilities: sudo apt install pulseaudio-utils") s
          let s := { s with isRecording := false }
          emit (.recordingStateChanged false 0 none) s
        else
          let deviceId := strReplaceFirst inputDeviceId "monitor-" ""
          match env.pactlSources with
          | none =>
            let s := { s with isRecording := false }
            let s := emit (.playbackError "System audio capture failed" "Unknown error occurred") s
            emit (.recordingStateChanged false 0 none) s
          | some out =>
            match pactlFindName out deviceId with
            | none =>
              let s := emit (.playbackError "Monitor source not found"
                ("Could not find monitor source for device ID: " ++ deviceId ++
                  ". Available sources: " ++
                  String.intercalate ", " ((pactlLines out).map (fun l =>
                    (strSplit l '\t').getD 0 "" ++ ":" ++ (strSplit l '\t').getD 1 "")))) s
              let s := { s with isRecording := false }
              emit (.recordingStateChanged false 0 none) s
            | some monitorSourceName =>
              let (pid, s) := spawnProc .capture
                ("parecord --format=s16le --rate=44100 --channels=1 --device=" ++
                  monitorSourceName ++ " " ++ s.currentRecordingFile) s
              { s with recordingStream := some (.sysCapture pid) }

/-! ## Device inventory (main.ts 1441-1629) -/

/-- The synthetic default output entry pushed first by `getAudioDevices`. -/
def defaultDevice : AudioDevice :=
  { id := "default", name := "Default Output", type := "output", isDefault := true,
    isVirtual := none, isMonitor := none, description := none }

/-- The PulseAudio sink enumeration step (main.ts 1454-1499): tab-separated
lines, monitor/loopback names skipped, virtual-name heuristics, emoji display
names, and `isDefault: index === 0` for the first line of the sink list. -/
def pulseSinkDevices (out : String) : List AudioDevice :=
  ((pactlLines out).enum).filterMap (fun p =>
    let index := p.1
    let parts := strSplit p.2 '\t'
    if 2 ≤ parts.length then
      let deviceName := parts.getD 1 ""
      let deviceId := parts.getD 0 ""
      if strContainsStr (strToLower deviceName) "monitor"
          || strContainsStr (strToLower deviceName) "loopback" then none
      else
        let isVirtual := strContainsStr (strToLower deviceName) "virtual"
          || strContainsStr (strToLower deviceName) "null"
          || strContainsStr (strToLower deviceName) "soundboard-output"
        let displayName :=
          if strContainsStr (strToLower deviceName) "bluetooth"
              || strContainsStr (strToLower deviceName) "bluez" then "🎧 " ++ deviceName
          else if strContainsStr (strToLower deviceName) "speaker" then "📺 " ++ deviceName
          else if strContainsStr (strToLower deviceName) "hdmi" then "📺 " ++ deviceName
          else if isVirtual then "🔌 " ++ deviceName
          else deviceName
        some { id := "pulse-" ++ deviceId, name := displayName,
               type := if isVirtual then "virtual" else "output",
               isDefault := index == 0,
               isVirtual := some isVirtual,
               isMonitor := none,
               description := if isVirtual then some "Virtual device for Discord integration"
                 else none }
    else none)

/-- The ALSA card enumeration step (main.ts 1502-1527): lines containing
"card", matched against the card pattern (the capture is the `cardMatch`
environment oracle). -/
def alsaDevices (env : Env) (out : String) : List AudioDevice :=
  ((strSplit out '\n').filter (fun l => strContainsStr l "card")).filterMap (fun line =>
    match env.cardMatch line with
    | some (num, cardId, desc) =>
      let deviceName := cardId ++ " (" ++ desc ++ ")"
      let isVirtual := strContainsStr (strToLower deviceName) "virtual"
        || strContainsStr (strToLower deviceName) "null"
        || strContainsStr (strToLower deviceName) "loopback"
      some { id := "alsa-" ++ num, name := deviceName,
             type := if isVirtual then "virtual" else "output",
             isDefault := false, isVirtual := some isVirtual, isMonitor := none,
             description := if isVirtual then some "Virtual device for Discord integration"
               else none }
    | none => none)

/-- The fixed list of commonly known virtual devices (main.ts 1530-1547). -/
def commonVirtualDevices : List AudioDevice :=
  [ { id := "soundboard-output", name := "🔌 SoundBoard Virtual Output", type := "virtual",
      isDefault := false, isVirtual := some true, isMonitor := none,
      description := some "Virtual output device for Discord integration (created by setup script)" },
    { id := "vb-cable", name := "🔌 VB-Cable Virtual Audio Device", type := "virtual",
      isDefault := false, isVirtual := some true, isMonitor := none,
      description := some "Virtual audio cable for Discord integration (requires VB-Cable installation)" } ]

/-- The PulseAudio source enumeration step (main.ts 1557-1618): monitor
sources become `monitor-<id>` entries (name looked up through the
`sourceDescription` oracle, `.monitor` suffix stripped); non-monitor,
non-sink names become input entries with emoji heuristics. -/
def sourceDevices (env : Env) (out : String) : List AudioDevice :=
  (pactlLines out).filterMap (fun line =>
    let parts := strSplit line '\t'
    if 2 ≤ parts.length then
      let deviceName := parts.getD 1 ""
      let deviceId := parts.getD 0 ""
      if strContainsStr (strToLower deviceName) "monitor" then
        let sourceName := strReplaceFirst deviceName ".monitor" ""
        let sourceDescription := (env.sourceDescription sourceName).getD sourceName
        some { id := "monitor-" ++ deviceId,
               name := "🎵 " ++ sourceDescription ++ " (System Audio)",
               type := "monitor", isDefault := false, isVirtual := none,
               isMonitor := some true,
               description := some ("Capture audio from " ++ sourceDescription) }
      else if !strContainsStr deviceName "monitor" && !strContainsStr deviceName "sink" then
        let displayName :=
          if strContainsStr deviceName "bluetooth" || strContainsStr deviceName "bluez" then
            "🎧 " ++ deviceName
          else if strContainsStr deviceName "usb" then "🔌 " ++ deviceName
          else if strContainsStr deviceName "built-in" || strContainsStr deviceName "Mic" then
            "🎤 " ++ deviceName
          else deviceName
        some { id := deviceName, name := displayName, type := "input",
               isDefault := false, isVirtual := none, isMonitor := some false,
               description := some "Microphone input device" }
      else none
    else none)

/-- getAudioDevices (main.ts 1441-1629): synthetic default entry first, then
the four independently fault-tolerant discovery steps (a `none` backend
result models the `execSync` of that step throwing and being caught), then the
final non-empty guard. -/
def getAudioDevices (env : Env) : List AudioDevice :=
  let devices := [defaultDevice]
  let devices := devices ++ (match env.pactlSinks with
    | some out => pulseSinkDevices out
    | none => [])
  let devices := devices ++ (match env.aplayL with
    | some out => alsaDevices env out
    | none => [])
  let devices := commonVirtualDevices.foldl (fun acc v =>
    if acc.any (fun d => d.id == v.id) then acc else acc ++ [v]) devices
  let devices := devices ++ (match env.pactlSources with
    | some out => sourceDevices env out
    | none => [])
  if 0 < devices.length then devices else [defaultDevice]

/-! ## Statement vocabulary -/

/-- The no-op guard of playClip (main.ts 320):
`!clip || !fs.existsSync(clip.filePath)` — the clip id matches no stored
clip, or its file does not exist. -/
def playClipLookupFails (env : Env) (clipId : String) (s : AppState) : Bool :=
  match (getClips s).find? (fun c => c.id == clipId) with
  | none => true
  | some clip => !env.fileExists clip.filePath

/-- Selects the playback-error messages out of an event log. -/
def isPlaybackErrorEvent : Event → Bool
  | .playbackError _ _ => true
  | _ => false

/-- No clip of `new` holds a hotkey combo it did not already hold in `old`:
each either has no combo, or a clip of the same id held the same combo
before. Used to state that a failed registration persists no new combo. -/
def ClipsHotkeyShrink (old new : List AudioClip) : Prop :=
  ∀ c ∈ new, c.hotkey = none ∨ ∃ c₀ ∈ old, c₀.id = c.id ∧ c₀.hotkey = c.hotkey

/-! ## Concrete fixtures used by the closed theorems -/

/-- A baseline environment: files exist, every backend query throws, the
probe and OS hotkey registration succeed. -/
def envBase : Env :=
  { fileExists := fun _ => true
    pactlSinks := none
    pactlSources := none
    aplayL := none
    cardMatch := fun _ => none
    sourceDescription := fun _ => none
    parecordAvailable := true
    registerOk := fun _ => true
    randomSuffix := "r0"
  }

/-- Default settings record (the `defaultSettings` literal of getSettings,
main.ts 963-976). -/
def defaultSettings : AppSettings :=
  { theme := "system", outputDeviceId := "", virtualAudioDeviceId := "",
    inputDeviceId := "", clipsDirectory := "/home/user/Documents/SoundboardApp/clips",
    enableHotkeys := true, volume := 1, enableVirtualAudioRouting := false,
    enableSystemAudioCapture := false, enableAutoStart := false,
    enableSpeakerLoopback := false, enableHeadphoneLoopback := false }

/-- An idle application state: nothing recording, nothing playing. -/
def idleState : AppState :=
  { isRecording := false
    recordingStream := none
    recordingStartTime := 0
    currentRecordingFile := ""
    playbackState := stoppedPlaybackState
    currentPlayback := none
    clips := []
    hotkeyMap := []
    osHotkeys := []
    settings := defaultSettings
    clipsDirectory := "/home/user/Documents/SoundboardApp/clips"
    procs := []
    nextPid := 1
    events := []
    killLog := []
    pendingFinalize := false
    now := 1000 }

/-- Environment whose sink listing holds two ordinary hardware sinks;
`pactl list short sinks` output carries no default-sink marker at all. -/
def envTwoSinks : Env :=
  { envBase with
    pactlSinks := some "0\tsinkA\tmod\ts16le 2ch\tRUNNING\n1\tsinkB\tmod\ts16le 2ch\tIDLE" }

/-- Environment where the `parecord --version` probe fails. -/
def envNoParecord : Env := { envBase with parecordAvailable := false }

/-- Environment where `globalShortcut.register` fails. -/
def envRegFail : Env := { envBase with registerOk := fun _ => false }

/-- Environment with one ALSA card and failing PulseAudio queries. -/
def envOneCard : Env :=
  { envBase with
    aplayL := some "card 0: HDA, device 0"
    cardMatch := fun l => if l == "card 0: HDA, device 0" then some ("0", "HDA", "Analog") else none }

/-- The device the ALSA step of `getAudioDevices` derives in `envOneCard`. -/
def alsaCard0Device : AudioDevice :=
  { id := "alsa-0", name := "HDA (Analog)", type := "output",
    isDefault := false, isVirtual := some false, isMonitor := none, description := none }

/-- State ready for system-audio capture: capture enabled and a monitor
input device configured. -/
def sCaptureReady : AppState :=
  { idleState with
    settings := { defaultSettings with
      enableSystemAudioCapture := true, inputDeviceId := "monitor-3" } }

/-- A stored clip used by the playback fixtures. -/
def clipX : AudioClip :=
  { id := "x", name := "Clip_01", filePath := "/clips/x.wav", duration := 2000,
    createdAt := 5, hotkey := none }

/-- State in the middle of playing `clipX` through process 7. -/
def sPlaying : AppState :=
  { idleState with
    clips := [clipX]
    playbackState := { isPlaying := true, currentClipId := some "x", progress := 0, startTime := 900 }
    currentPlayback := some { pid := 7, method := "play-sound" }
    procs := [{ pid := 7, kind := .playback, cmd := "play-sound /clips/x.wav", alive := true }]
    nextPid := 8 }

/-- State in the middle of a running system-audio capture (process 3). -/
def sCapturing : AppState :=
  { idleState with
    isRecording := true
    recordingStream := some (.sysCapture 3)
    recordingStartTime := 500
    currentRecordingFile := "/clips/system_audio_900.wav"
    procs := [{ pid := 3, kind := .capture, cmd := "parecord", alive := true }]
    nextPid := 4
    settings := { defaultSettings with
      enableSystemAudioCapture := true, inputDeviceId := "monitor-3" } }

/-- A clip that owns the combo Ctrl+F1. -/
def clipA : AudioClip :=
  { id := "a", name := "A", filePath := "/clips/a.wav", duration := 1000,
    createdAt := 1, hotkey := some "Ctrl+F1" }

/-- State where `clipA` owns Ctrl+F1 in the clip store, the in-memory map
and the OS registration set. -/
def sHotkey : AppState :=
  { idleState with
    clips := [clipA]
    hotkeyMap := [("Ctrl+F1", "a")]
    osHotkeys := ["Ctrl+F1"] }

/-- Idle state with a recording in progress (microphone mode). -/
def sRecording : AppState :=
  { idleState with isRecording := true, recordingStream := some .mic, recordingStartTime := 800 }

/-- Clips used by the saveClip fixtures. -/
def clipB : AudioClip :=
  { id := "b", name := "B", filePath := "/clips/b.wav", duration := 500,
    createdAt := 2, hotkey := none }

/-- A fresh clip, id distinct from `clipA` and `clipB`. -/
def clipNew : AudioClip :=
  { id := "n", name := "N", filePath := "/clips/n.wav", duration := 700,
    createdAt := 3, hotkey := none }

/-- A replacement for `clipB`: same id, new name. -/
def clipB2 : AudioClip :=
  { id := "b", name := "B renamed", filePath := "/clips/b.wav", duration := 500,
    createdAt := 2, hotkey := none }

/-! ## Basic lemmas about the embedding -/

theorem getClips_eq (s : AppState) : getClips s = s.clips :=
  List.map_id s.clips

theorem stopPlayback_currentPlayback (s : AppState) :
    (stopPlayback s).currentPlayback = none := by
  cases h : s.currentPlayback <;> simp [stopPlayback, emit, killPid, h]

theorem stopPlayback_clips (s : AppState) : (stopPlayback s).clips = s.clips := by
  cases h : s.currentPlayback <;> simp [stopPlayback, emit, killPid, h]

theorem stopPlayback_playbackState (s : AppState) :
    (stopPlayback s).playbackState = stoppedPlaybackState := by
  cases h : s.currentPlayback <;> simp [stopPlayback, emit, killPid, h]

theorem stopPlayback_events (s : AppState) :
    (stopPlayback s).events = s.events ++ [.playbackStateChanged stoppedPlaybackState] := by
  cases h : s.currentPlayback <;> simp [stopPlayback, emit, killPid, h]

theorem stopPlayback_killLog_of_none (s : AppState) (h : s.currentPlayback = none) :
    (stopPlayback s).killLog = s.killLog := by
  simp [stopPlayback, emit, killPid, h]

theorem stopPlayback_killLog_of_some (s : AppState) (cp : PlaybackHandle)
    (h : s.currentPlayback = some cp) :
    (stopPlayback s).killLog = s.killLog ++ [cp.pid] := by
  simp [stopPlayback, emit, killPid, h]

theorem stopPlayback_procs_of_none (s : AppState) (h : s.currentPlayback = none) :
    (stopPlayback s).procs = s.procs := by
  simp [stopPlayback, emit, killPid, h]

theorem handleSystemAudioExit_clips (code : Int) (signal : String) (s : AppState) :
    (handleSystemAudioExit code signal s).clips = s.clips := by
  unfold handleSystemAudioExit handleSystemAudioError emit
  split <;> rfl

theorem finalize_of_not_recording (env : Env) (s : AppState) (h : s.isRecording = false) :
    finalizeSystemAudioCapture env s = s := by
  simp [finalizeSystemAudioCapture, h]

theorem finalize_isRecording (env : Env) (s : AppState) :
    (finalizeSystemAudioCapture env s).isRecording = false := by
  by_cases h : s.isRecording
  · simp only [finalizeSystemAudioCapture, h, Bool.not_true, Bool.false_eq_true, if_false]
    split <;> split <;> simp [emit, killPid, saveClip]
  · rw [finalize_of_not_recording env s (by simpa using h)]
    simpa using h

/-! ## Claim theorems -/

/-- C8: stopPlayback is idempotent — a second call right after a first one
makes no further kill attempt (kill log and process table unchanged) and
leaves the playback state, the cleared handle and the clip store exactly as
the first call left them. -/
theorem C8_stopPlayback_idempotent (s : AppState) :
    (stopPlayback (stopPlayback s)).killLog = (stopPlayback s).killLog ∧
    (stopPlayback (stopPlayback s)).procs = (stopPlayback s).procs ∧
    (stopPlayback (stopPlayback s)).playbackState = (stopPlayback s).playbackState ∧
    (stopPlayback (stopPlayback s)).currentPlayback = (stopPlayback s).currentPlayback ∧
    (stopPlayback (stopPlayback s)).clips = (stopPlayback s).clips := by
  have h := stopPlayback_currentPlayback s
  refine ⟨stopPlayback_killLog_of_none _ h, stopPlayback_procs_of_none _ h, ?_, ?_, ?_⟩
  · rw [stopPlayback_playbackState, stopPlayback_playbackState]
  · rw [stopPlayback_currentPlayback, stopPlayback_currentPlayback]
  · rw [stopPlayback_clips]

/-- C2 counterexample: in a running capture, when the capture process exit
callback (code 0) fires before the 300 ms finalize timer, no clip at all is
materialized — the timer-scheduled finalize then hits the cleared latch —
whereas the finalize alone materializes exactly one; so it is not the case
that whichever of the two triggers fires first materializes the clip. -/
theorem C2_counterexample :
    (finalizeSystemAudioCapture envBase (handleSystemAudioExit 0 "" sCapturing)).clips.length = 0 ∧
    (finalizeSystemAudioCapture envBase sCapturing).clips.length = 1 :=
  ⟨rfl, rfl⟩

/-- C2 (amended): only the timer-scheduled `finalizeSystemAudioCapture`
materializes the clip — the process-exit callback never touches the clip
store — and the `isRecording` latch makes finalize idempotent: a second
finalize changes nothing at all, so in particular it cannot create a second
clip. -/
theorem C2_finalize_latch (env : Env) (code : Int) (signal : String) (s : AppState) :
    (handleSystemAudioExit code signal s).clips = s.clips ∧
    finalizeSystemAudioCapture env (finalizeSystemAudioCapture env s) =
      finalizeSystemAudioCapture env s :=
  ⟨handleSystemAudioExit_clips code signal s,
    finalize_of_not_recording env _ (finalize_isRecording env s)⟩

/-- C1: evaluating the `soundboard-output` exit callback at the failing
configuration — the callback of an earlier playback (clip "a") fires with
exit code 0 while a newer playback (clip "x", process 7) is the one
currently tracked — shows it resets the newer PlaybackState and kills the
newer process: the completion path mutates state without checking that the
exiting process is still the tracked one. -/
theorem C1_divergence :
    sPlaying.playbackState.isPlaying = true ∧
    sPlaying.playbackState.currentClipId = some "x" ∧
    (soundboardOutputExitCallback envBase 5 "/clips/a.wav" "a" false 0
      sPlaying).playbackState.isPlaying = false ∧
    7 ∈ (soundboardOutputExitCallback envBase 5 "/clips/a.wav" "a" false 0
      sPlaying).killLog := by
  decide

/-- C4: evaluating `getAudioDevices` on a sink listing of two ordinary
hardware sinks — `pactl list short sinks` output carries no default-sink
flag at all — shows the first enumerated sink is flagged `isDefault := true`
purely by its position, and the second is not. -/
theorem C4_first_sink_flagged_default :
    ((getAudioDevices envTwoSinks).find? (fun d => d.id == "pulse-0")).map
      AudioDevice.isDefault = some true ∧
    ((getAudioDevices envTwoSinks).find? (fun d => d.id == "pulse-1")).map
      AudioDevice.isDefault = some false :=
  ⟨rfl, rfl⟩

/-- C5 counterexample: when the `parecord` probe fails on an otherwise valid
start, the recording flag is set to true and broadcast to the renderer
before the probe runs — the aborted start does flip `isRecording`, even
though it is false again when the call returns. -/
theorem C5_counterexample :
    Event.recordingStateChanged true 0 (some 1000) ∈
      (startSystemAudioCapture envNoParecord sCaptureReady).events ∧
    (startSystemAudioCapture envNoParecord sCaptureReady).isRecording = false := by
  decide

/-- C6 counterexample: while clip "x" is playing, `playClip` on an id that
matches no stored clip is not a no-op on PlaybackState — the unconditional
pre-stop resets the active playback before the lookup fails. -/
theorem C6_counterexample :
    playClipLookupFails envBase "bogus" sPlaying = true ∧
    (playClip envBase 5 "bogus" sPlaying).playbackState ≠ sPlaying.playbackState := by
  decide

/-- C3 counterexample: with clip "a" owning Ctrl+F1, a registerHotkey call
for clip "a" with a new combo whose OS registration fails returns false but
has already mutated state: the previous combo of the clip and its map and OS
entries are gone. -/
theorem C3_counterexample :
    (registerHotkey envRegFail "a" "F2" ["Ctrl"] sHotkey).1 = false ∧
    (registerHotkey envRegFail "a" "F2" ["Ctrl"] sHotkey).2 ≠ sHotkey ∧
    ((registerHotkey envRegFail "a" "F2" ["Ctrl"] sHotkey).2.clips.map
      AudioClip.hotkey) = [none] ∧
    (registerHotkey envRegFail "a" "F2" ["Ctrl"] sHotkey).2.hotkeyMap = [] := by
  decide

theorem clipsHotkeyShrink_refl (l : List AudioClip) : ClipsHotkeyShrink l l :=
  fun c hc => Or.inr ⟨c, hc, rfl, rfl⟩

theorem clipsHotkeyShrink_trans {l₁ l₂ l₃ : List AudioClip}
    (h₁ : ClipsHotkeyShrink l₁ l₂) (h₂ : ClipsHotkeyShrink l₂ l₃) :
    ClipsHotkeyShrink l₁ l₃ := by
  intro c hc
  rcases h₂ c hc with h | ⟨c₀, hc₀, hid, hk⟩
  · exact Or.inl h
  · rcases h₁ c₀ hc₀ with h | ⟨c₁, hc₁, hid₁, hk₁⟩
    · exact Or.inl (hk ▸ h)
    · exact Or.inr ⟨c₁, hc₁, hid₁.trans hid, hk₁.trans hk⟩

theorem clipsHotkeyShrink_set_none (l : List AudioClip) (i : Nat) (c : AudioClip) :
    ClipsHotkeyShrink l (l.set i { c with hotkey := none }) := by
  intro d hd
  rcases List.mem_or_eq_of_mem_set hd with h | h
  · exact Or.inr ⟨d, h, rfl, rfl⟩
  · exact Or.inl (by rw [h])

theorem unregisterHotkey_shrink (clipId : String) (s : AppState) :
    (∀ kv ∈ (unregisterHotkey clipId s).2.hotkeyMap, kv ∈ s.hotkeyMap) ∧
    (∀ k ∈ (unregisterHotkey clipId s).2.osHotkeys, k ∈ s.osHotkeys) ∧
    ClipsHotkeyShrink s.clips (unregisterHotkey clipId s).2.clips := by
  simp only [unregisterHotkey, getClips_eq]
  split
  · exact ⟨fun _ h => h, fun _ h => h, clipsHotkeyShrink_refl _⟩
  · split
    · exact ⟨fun _ h => h, fun _ h => h, clipsHotkeyShrink_refl _⟩
    · split
      · exact ⟨fun _ h => List.mem_of_mem_filter h, fun _ h => List.mem_of_mem_erase h,
          clipsHotkeyShrink_set_none _ _ _⟩
      · exact ⟨fun _ h => List.mem_of_mem_filter h, fun _ h => List.mem_of_mem_erase h,
          clipsHotkeyShrink_refl _⟩

/-- C3 (amended): when the OS-level registration fails, `registerHotkey`
returns false and persists nothing new — every entry of the hotkey map and
of the OS registration set after the call was already present before it (so
neither gains any entry, in particular not the failed combo), and no clip
ends up owning a combo it did not already own — but the call is not
mutation-free: the pre-registration unregistrations (of the previous combo
of the target clip and of the combo of a conflicting owner) have already
happened, as the counterexample shows. -/
theorem C3_register_fail_no_new_state (env : Env) (clipId key : String)
    (modifiers : List String) (s : AppState)
    (hreg : env.registerOk (String.intercalate "+" (modifiers ++ [key])) = false) :
    (registerHotkey env clipId key modifiers s).1 = false ∧
    (∀ kv ∈ (registerHotkey env clipId key modifiers s).2.hotkeyMap, kv ∈ s.hotkeyMap) ∧
    (∀ k ∈ (registerHotkey env clipId key modifiers s).2.osHotkeys, k ∈ s.osHotkeys) ∧
    ClipsHotkeyShrink s.clips (registerHotkey env clipId key modifiers s).2.clips := by
  have h1 := unregisterHotkey_shrink clipId s
  simp only [registerHotkey, hreg, Bool.false_eq_true, if_false]
  by_cases hmh : mapHas (unregisterHotkey clipId s).2.hotkeyMap
      (String.intercalate "+" (modifiers ++ [key]))
  · simp only [hmh, if_true]
    cases hg : mapGet (unregisterHotkey clipId s).2.hotkeyMap
        (String.intercalate "+" (modifiers ++ [key])) with
    | none => exact ⟨trivial, h1.1, h1.2.1, h1.2.2⟩
    | some existingClipId =>
      have h2 := unregisterHotkey_shrink existingClipId (unregisterHotkey clipId s).2
      exact ⟨trivial, fun kv hkv => h1.1 kv (h2.1 kv hkv),
        fun k hk => h1.2.1 k (h2.2.1 k hk),
        clipsHotkeyShrink_trans h1.2.2 h2.2.2⟩
  · simp only [hmh, if_false]
    exact ⟨trivial, h1.1, h1.2.1, h1.2.2⟩

/-- C3 witness: the amended theorem evaluated at the concrete failing
registration — in particular the failed combo Ctrl+F2 ends up neither in
the hotkey map (for any clip) nor in the OS registration set. -/
theorem C3_witness :
    (registerHotkey envRegFail "a" "F2" ["Ctrl"] sHotkey).1 = false ∧
    ("Ctrl+F2", "a") ∉ (registerHotkey envRegFail "a" "F2" ["Ctrl"] sHotkey).2.hotkeyMap ∧
    "Ctrl+F2" ∉ (registerHotkey envRegFail "a" "F2" ["Ctrl"] sHotkey).2.osHotkeys := by
  have h := C3_register_fail_no_new_state envRegFail "a" "F2" ["Ctrl"] sHotkey (by decide)
  refine ⟨h.1, fun hm => ?_, fun hm => ?_⟩
  · exact absurd (h.2.1 _ hm) (by decide)
  · exact absurd (h.2.2.1 _ hm) (by decide)

/-- C5 (amended): when the `parecord` version probe fails on an otherwise
valid system-audio start, the call emits the descriptive error and returns
with `isRecording = false` — but the flag is first set to true (and a
recording-state change with `isRecording = true` broadcast) before the probe
runs, so the aborted start does transiently flip the flag. -/
theorem C5_probe_fail_aborts (env : Env) (s : AppState)
    (hp : env.parecordAvailable = false)
    (hr : s.isRecording = false)
    (hc : (getSettings s).enableSystemAudioCapture = true)
    (hm : strStartsWith (getSettings s).inputDeviceId "monitor-" = true) :
    (startSystemAudioCapture env s).isRecording = false ∧
    Event.playbackError "Parecord is not available"
      "Please install PulseAudio utilities: sudo apt install pulseaudio-utils" ∈
      (startSystemAudioCapture env s).events ∧
    Event.recordingStateChanged true 0 (some s.now) ∈
      (startSystemAudioCapture env s).events := by
  have hne : ((getSettings s).inputDeviceId == "") = false := by
    cases hh : (getSettings s).inputDeviceId == ""
    · rfl
    · exfalso
      have : (getSettings s).inputDeviceId = "" := by
        simpa using hh
      rw [this] at hm
      exact absurd hm (by decide)
  simp [startSystemAudioCapture, hp, hr, hc, hm, hne, emit]

/-- C5 witness: the amended theorem evaluated at the concrete aborted
start. -/
theorem C5_witness :
    (startSystemAudioCapture envNoParecord sCaptureReady).isRecording = false ∧
    Event.playbackError "Parecord is not available"
      "Please install PulseAudio utilities: sudo apt install pulseaudio-utils" ∈
      (startSystemAudioCapture envNoParecord sCaptureReady).events := by
  have h := C5_probe_fail_aborts envNoParecord sCaptureReady rfl rfl rfl (by decide)
  exact ⟨h.1, h.2.1⟩

theorem stopPlayback_errorEvents (s : AppState) :
    (stopPlayback s).events.filter isPlaybackErrorEvent =
      s.events.filter isPlaybackErrorEvent := by
  rw [stopPlayback_events, List.filter_append]
  simp [isPlaybackErrorEvent]

/-- Characterization of playClip at a failed lookup: the call reduces to the
two unconditional stops. -/
theorem playClip_of_lookup_fails (env : Env) (fuel : Nat) (clipId : String)
    (s : AppState) (h : playClipLookupFails env clipId s = true) :
    playClip env fuel clipId s =
      stopPlayback (if s.playbackState.isPlaying then stopPlayback s else s) := by
  have hclips :
      getClips (stopPlayback (if s.playbackState.isPlaying then stopPlayback s else s)) =
        getClips s := by
    rw [getClips_eq, getClips_eq, stopPlayback_clips]
    cases hp : s.playbackState.isPlaying <;> simp [stopPlayback_clips]
  simp only [playClip]
  rw [hclips]
  unfold playClipLookupFails at h
  cases hf : (getClips s).find? (fun c => c.id == clipId) with
  | none => simp [hf]
  | some clip =>
    rw [hf] at h
    simp only [Bool.not_eq_true'] at h
    simp [hf, h]

/-- C6 (amended): `playClip` on an id with no matching stored clip (or whose
clip file is missing) surfaces no error event, leaves the clip store
untouched, and never transitions to playing — the playback state afterwards
is the canonical not-playing state, which equals the prior state when
nothing was playing; an active playback, however, is stopped by the
unconditional pre-stop (see the counterexample). -/
theorem C6_missing_clip_no_op (env : Env) (fuel : Nat) (clipId : String)
    (s : AppState) (h : playClipLookupFails env clipId s = true) :
    (playClip env fuel clipId s).playbackState = stoppedPlaybackState ∧
    (playClip env fuel clipId s).events.filter isPlaybackErrorEvent =
      s.events.filter isPlaybackErrorEvent ∧
    (playClip env fuel clipId s).clips = s.clips := by
  rw [playClip_of_lookup_fails env fuel clipId s h]
  refine ⟨stopPlayback_playbackState _, ?_, ?_⟩
  · rw [stopPlayback_errorEvents]
    cases hp : s.playbackState.isPlaying <;> simp [stopPlayback_errorEvents]
  · rw [stopPlayback_clips]
    cases hp : s.playbackState.isPlaying <;> simp [stopPlayback_clips]

/-- C6 witness: the amended theorem evaluated at an unknown clip id in the
idle state. -/
theorem C6_witness :
    (playClip envBase 5 "bogus" idleState).playbackState = stoppedPlaybackState ∧
    (playClip envBase 5 "bogus" idleState).clips = idleState.clips := by
  have h := C6_missing_clip_no_op envBase 5 "bogus" idleState (by decide)
  exact ⟨h.1, h.2.2⟩

theorem spawnProc_killLog (kind : ProcKind) (cmd : String) (s : AppState) :
    (spawnProc kind cmd s).2.killLog = s.killLog := rfl

theorem playbackCallStep_killLog (env : Env) :
    ∀ (fuel : Nat) (pc : PlaybackCall) (s : AppState),
      (playbackCallStep env fuel pc s).killLog = s.killLog := by
  intro fuel
  induction fuel with
  | zero => intro pc s; rfl
  | succ n ih =>
    intro pc s
    cases pc <;> simp only [playbackCallStep] <;>
      (repeat' split) <;> first | exact ih _ _ | rfl

theorem createPulseAudioProcess_killLog (env : Env) (filePath deviceId clipId : String)
    (s : AppState) :
    (createPulseAudioProcess env filePath deviceId clipId s).2.killLog = s.killLog := by
  simp only [createPulseAudioProcess]
  (repeat' split) <;> rfl

theorem playSystemAudioClip_killLog (env : Env) (fuel : Nat)
    (filePath clipId : String) (duration : Nat) (s : AppState) :
    (playSystemAudioClip env fuel filePath clipId duration s).killLog = s.killLog := by
  have hcp : ∀ (d : String) (s₀ : AppState) (p? : Option Nat) (s₁ : AppState),
      createPulseAudioProcess env filePath d clipId s₀ = (p?, s₁) →
      s₁.killLog = s₀.killLog := by
    intro d s₀ p? s₁ h
    have h2 := createPulseAudioProcess_killLog env filePath d clipId s₀
    rw [h] at h2
    exact h2
  simp only [playSystemAudioClip]
  split
  · exact playbackCallStep_killLog env fuel _ s
  · split
    · rename_i x pid s₁ heq
      by_cases hout : ((getSettings s).outputDeviceId != "" &&
          (getSettings s).outputDeviceId != "default") = true
      · rw [if_pos hout] at heq
        exact hcp _ s (some pid) s₁ heq
      · rw [if_neg hout] at heq
        simp at heq
    · rename_i x s₁ heq
      have hs₁ : s₁.killLog = s.killLog := by
        by_cases hout : ((getSettings s).outputDeviceId != "" &&
            (getSettings s).outputDeviceId != "default") = true
        · rw [if_pos hout] at heq
          exact hcp _ s none s₁ heq
        · rw [if_neg hout] at heq
          cases heq
          rfl
      split
      · rename_i y pid s₂ heq2
        exact (hcp "default" s₁ (some pid) s₂ heq2).trans hs₁
      · rename_i y s₂ heq2
        exact (playbackCallStep_killLog env fuel _ _).trans
          ((hcp "default" s₁ none s₂ heq2).trans hs₁)

theorem playClip_killLog (env : Env) (fuel : Nat) (clipId : String) (s : AppState) :
    (playClip env fuel clipId s).killLog =
      (stopPlayback (if s.playbackState.isPlaying then stopPlayback s else s)).killLog := by
  simp only [playClip]
  split
  · rfl
  · split
    · rfl
    · split
      · exact playSystemAudioClip_killLog env fuel _ _ _ _
      · exact playbackCallStep_killLog env fuel _ _

/-- C7: the exclusivity discipline of the controllers — starting either
capture mode while `isRecording` is already true is a no-op (state entirely
unchanged, nothing spawned, nothing emitted), and `playClip` issued while a
playback is active first kills the previously tracked playback process: the
first kill attempt the call appends to the kill log is precisely the pid of
the previously tracked handle. With the single `isRecording` flag and single
playback slot of the model, this is what keeps at most one recording and at
most one playback active across interleavings. -/
theorem C7_exclusivity (env : Env) (fuel : Nat) (clipId : String) (s : AppState) :
    (s.isRecording = true →
      startRecording s = s ∧ startSystemAudioCapture env s = s) ∧
    (∀ cp, s.playbackState.isPlaying = true → s.currentPlayback = some cp →
      (playClip env fuel clipId s).killLog[s.killLog.length]? = some cp.pid) := by
  constructor
  · intro h
    constructor
    · simp [startRecording, h]
    · simp [startSystemAudioCapture, h]
  · intro cp hp hcp
    have hkill : (playClip env fuel clipId s).killLog = s.killLog ++ [cp.pid] := by
      rw [playClip_killLog, hp]
      simp only [if_true]
      rw [stopPlayback_killLog_of_none _ (stopPlayback_currentPlayback s),
        stopPlayback_killLog_of_some s cp hcp]
    rw [hkill]
    exact List.getElem?_concat_length _ _

/-- C7 witness: the exclusivity theorem evaluated at a recording state and
at a playing state. -/
theorem C7_witness :
    (startRecording sRecording = sRecording ∧
      startSystemAudioCapture envBase sRecording = sRecording) ∧
    (playClip envBase 5 "x" sPlaying).killLog[sPlaying.killLog.length]? = some 7 := by
  refine ⟨(C7_exclusivity envBase 5 "x" sRecording).1 rfl, ?_⟩
  exact (C7_exclusivity envBase 5 "x" sPlaying).2 { pid := 7, method := "play-sound" } rfl rfl

theorem foldlIns_cons (l : List AudioDevice) (a : AudioDevice) (t : List AudioDevice) :
    ∃ u, l.foldl (fun acc v =>
        if acc.any (fun d => d.id == v.id) then acc else acc ++ [v]) (a :: t) = a :: u := by
  induction l generalizing t with
  | nil => exact ⟨t, rfl⟩
  | cons v rest ih =>
    simp only [List.foldl]
    by_cases h : (a :: t).any (fun d => d.id == v.id)
    · simpa [h] using ih t
    · simpa [h] using ih (t ++ [v])

theorem foldlIns_mem (l : List AudioDevice) (init : List AudioDevice)
    (d : AudioDevice) (hd : d ∈ init) :
    d ∈ l.foldl (fun acc v =>
        if acc.any (fun d => d.id == v.id) then acc else acc ++ [v]) init := by
  induction l generalizing init with
  | nil => exact hd
  | cons v rest ih =>
    simp only [List.foldl]
    by_cases h : init.any (fun d => d.id == v.id)
    · simpa [h] using ih init hd
    · simpa [h] using ih (init ++ [v]) (by simp [hd])

/-- C9: `getAudioDevices` is a total function of the backend results (no
backend failure escapes it), its first entry is always the synthetic default
output device — in particular the inventory is never empty, even when every
backend query fails — and a failure of the PulseAudio steps does not abort
the ALSA step: every device the ALSA step derives is in the result,
whatever the other backends returned. -/
theorem C9_getAudioDevices_inventory (env : Env) :
    (getAudioDevices env).head? = some defaultDevice ∧
    1 ≤ (getAudioDevices env).length ∧
    (∀ out, env.aplayL = some out →
      ∀ d ∈ alsaDevices env out, d ∈ getAudioDevices env) := by
  have key : ∃ u, getAudioDevices env = defaultDevice :: u ∧
      ∀ out, env.aplayL = some out →
        ∀ d ∈ alsaDevices env out, d ∈ defaultDevice :: u := by
    simp only [getAudioDevices, List.singleton_append, List.cons_append, List.nil_append]
    obtain ⟨u, hu⟩ := foldlIns_cons commonVirtualDevices defaultDevice
      ((match env.pactlSinks with
        | some out => pulseSinkDevices out
        | none => []) ++
       (match env.aplayL with
        | some out => alsaDevices env out
        | none => []))
    rw [hu]
    refine ⟨u ++ (match env.pactlSources with
      | some out => sourceDevices env out
      | none => []), ?_, ?_⟩
    · simp
    · intro out hout d hd
      have hmem : d ∈ defaultDevice ::
          ((match env.pactlSinks with
            | some out => pulseSinkDevices out
            | none => []) ++
           (match env.aplayL with
            | some out => alsaDevices env out
            | none => [])) := by
        rw [hout]
        simp [hd]
      have h2 := foldlIns_mem commonVirtualDevices _ d hmem
      rw [hu] at h2
      rcases List.mem_cons.mp h2 with h | h
      · simp [h]
      · simp [List.mem_append, h]
  obtain ⟨u, hu, hmem⟩ := key
  refine ⟨by rw [hu]; rfl, by rw [hu]; simp, ?_⟩
  intro out hout d hd
  rw [hu]
  exact hmem out hout d hd

/-- C9 witness: the inventory theorem evaluated at an environment where the
PulseAudio queries fail and one ALSA card is present. -/
theorem C9_witness :
    (getAudioDevices envOneCard).head? = some defaultDevice ∧
    alsaCard0Device ∈ getAudioDevices envOneCard := by
  refine ⟨(C9_getAudioDevices_inventory envOneCard).1, ?_⟩
  exact (C9_getAudioDevices_inventory envOneCard).2.2 "card 0: HDA, device 0" rfl
    alsaCard0Device (by decide)

theorem findClipIdx_eq_none (id : String) (l : List AudioClip) :
    findClipIdx id l = none ↔ ∀ c ∈ l, ¬c.id = id := by
  induction l with
  | nil => simp [findClipIdx]
  | cons c rest ih =>
    by_cases h : c.id = id
    · simp [findClipIdx, h]
    · simp [findClipIdx, h, ih]

theorem findClipIdx_some (id : String) (l : List AudioClip) (i : Nat)
    (h : findClipIdx id l = some i) : ∃ c, l[i]? = some c ∧ c.id = id := by
  induction l generalizing i with
  | nil => simp [findClipIdx] at h
  | cons c rest ih =>
    by_cases hc : c.id = id
    · simp only [findClipIdx, hc, beq_self_eq_true, if_true, Option.some.injEq] at h
      subst h
      exact ⟨c, by simp, hc⟩
    · simp only [findClipIdx, hc, beq_iff_eq, if_false, Option.map_eq_some'] at h
      obtain ⟨j, hj, rfl⟩ := h
      obtain ⟨d, hd, hdi⟩ := ih j hj
      exact ⟨d, by simpa using hd, hdi⟩

theorem findClipIdx_unique (id : String) (l : List AudioClip)
    (hnd : (l.map AudioClip.id).Nodup) (j : Nat) (c : AudioClip)
    (hj : l[j]? = some c) (hc : c.id = id) : findClipIdx id l = some j := by
  induction l generalizing j with
  | nil => simp at hj
  | cons a rest ih =>
    rw [List.map_cons, List.nodup_cons] at hnd
    cases j with
    | zero =>
      simp only [List.getElem?_cons_zero, Option.some.injEq] at hj
      subst hj
      simp [findClipIdx, hc]
    | succ j =>
      simp only [List.getElem?_cons_succ] at hj
      have hcmem : c ∈ rest := by
        have hlt : j < rest.length := by
          by_contra hge
          rw [List.getElem?_eq_none (Nat.le_of_not_lt hge)] at hj
          exact Option.noConfusion hj
        exact List.getElem?_mem hj
      have ha : ¬a.id = id := by
        intro hai
        exact hnd.1 (by
          rw [hai, ← hc]
          exact List.mem_map_of_mem AudioClip.id hcmem)
      simp [findClipIdx, ha, ih hnd.2 j hj]

theorem set_getElem_same {α : Type} (l : List α) :
    ∀ (i : Nat) (x : α), l[i]? = some x → l.set i x = l := by
  induction l with
  | nil => intro i x h; simp at h
  | cons a rest ih =>
    intro i x h
    cases i with
    | zero =>
      simp only [List.getElem?_cons_zero, Option.some.injEq] at h
      simp [h]
    | succ i =>
      simp only [List.getElem?_cons_succ] at h
      simp [ih i x h]

/-- C10: saveClip upserts by id — when a stored clip already carries the
id of the incoming clip, the entry is replaced in place (same position, every
other position untouched); otherwise the clip is appended at the end; and
uniqueness of stored ids is preserved either way. -/
theorem C10_saveClip_upsert (clips : List AudioClip) (clip : AudioClip) :
    ((∀ c ∈ clips, ¬c.id = clip.id) → saveClipList clips clip = clips ++ [clip]) ∧
    (∀ (i : Nat) (old : AudioClip), clips[i]? = some old → old.id = clip.id →
      (clips.map AudioClip.id).Nodup →
      (saveClipList clips clip)[i]? = some clip ∧
      ∀ j, ¬j = i → (saveClipList clips clip)[j]? = clips[j]?) ∧
    ((clips.map AudioClip.id).Nodup →
      ((saveClipList clips clip).map AudioClip.id).Nodup) := by
  refine ⟨?_, ?_, ?_⟩
  · intro h
    unfold saveClipList
    rw [(findClipIdx_eq_none clip.id clips).2 h]
  · intro i old hold hid hnd
    have hidx := findClipIdx_unique clip.id clips hnd i old hold hid
    unfold saveClipList
    rw [hidx]
    have hlt : i < clips.length := by
      by_contra hge
      rw [List.getElem?_eq_none (Nat.le_of_not_lt hge)] at hold
      exact Option.noConfusion hold
    refine ⟨List.getElem?_set_eq_of_lt clip hlt, ?_⟩
    intro j hj
    exact List.getElem?_set_ne (fun he => hj he.symm)
  · intro hnd
    unfold saveClipList
    cases hidx : findClipIdx clip.id clips with
    | none =>
      rw [List.map_append]
      have hni : clip.id ∉ clips.map AudioClip.id := by
        intro hmem
        obtain ⟨c, hc, hcid⟩ := List.mem_map.mp hmem
        exact ((findClipIdx_eq_none clip.id clips).1 hidx c hc) hcid
      simp [List.nodup_append, hnd, hni]
    | some i =>
      obtain ⟨c, hc, hcid⟩ := findClipIdx_some clip.id clips i hidx
      rw [List.map_set]
      have hsame : (clips.map AudioClip.id)[i]? = some clip.id := by
        rw [List.getElem?_map, hc]
        simp [hcid]
      rw [set_getElem_same _ i clip.id hsame]
      exact hnd

/-- C10 witness: the upsert theorem evaluated at concrete clip lists — an
append for a fresh id and an in-place replacement for an existing id. -/
theorem C10_witness :
    saveClipList [clipA, clipB] clipNew = [clipA, clipB] ++ [clipNew] ∧
    (saveClipList [clipA, clipB] clipB2)[1]? = some clipB2 ∧
    (saveClipList [clipA, clipB] clipB2)[0]? = [clipA, clipB][0]? ∧
    ((saveClipList [clipA, clipB] clipB2).map AudioClip.id).Nodup := by
  refine ⟨(C10_saveClip_upsert [clipA, clipB] clipNew).1 (by decide), ?_, ?_, ?_⟩
  · exact ((C10_saveClip_upsert [clipA, clipB] clipB2).2.1 1 clipB (by decide) (by decide)
      (by decide)).1
  · exact ((C10_saveClip_upsert [clipA, clipB] clipB2).2.1 1 clipB (by decide) (by decide)
      (by decide)).2 0 (by decide)
  · exact (C10_saveClip_upsert [clipA, clipB] clipB2).2.2 (by decide)

end Soundboard
